import Mathlib

/-!
Verification of the request-admission guard in `api/chat.js`.

The handler is embedded shallowly: the rate-limiter map is an association
list threaded through explicitly, timestamps are integers (JS `Date.now()`
values), and the single outbound `fetch` is modelled by an oracle value
describing how the promise settled.  Side observations that the claims
speak about (was the timeout timer started / cleared, was the upstream
service called) are recorded as boolean fields of the handler's result.
-/

namespace ChatApi

/-- `WINDOW_MS = 60_000` — the fixed rate-limit window, in milliseconds. -/
def WINDOW_MS : Int := 60000

/-- `MAX_REQ_PER_WINDOW = 20` — requests admitted per key per window. -/
def MAX_REQ_PER_WINDOW : Nat := 20

/-- `MAX_INPUT_CHARS = 700` — maximum message length, in characters. -/
def MAX_INPUT_CHARS : Nat := 700

/-- `TIMEOUT_MS = 20_000` — upstream call timeout, in milliseconds. -/
def TIMEOUT_MS : Nat := 20000

/-- The JSON value found at the request body's `message` field: either a
string or some non-string value (number, object, ...). -/
inductive JsonVal where
  | str (s : String)
  | nonStr
deriving DecidableEq, Repr

/-- The request body, when present: an object whose `message` field may be
absent. -/
structure ReqBody where
  message : Option JsonVal
deriving DecidableEq, Repr

/-- The parts of the incoming request the handler reads: the method, the
(possibly absent) parsed JSON body, the `x-forwarded-for` header and the
socket's remote address. -/
structure Request where
  method : String
  body : Option ReqBody
  xForwardedFor : Option String
  remoteAddress : Option String
deriving DecidableEq, Repr

/-- A rate-limiter record: `{ count, windowStart }` as stored in `hits`. -/
structure RateLimitRecord where
  count : Nat
  windowStart : Int
deriving DecidableEq, Repr

/-- The per-instance `hits` map, as an association list from caller key to
record (first binding wins, keys kept unique by `hitsSet`). -/
abbrev Hits := List (String × RateLimitRecord)

/-- `hits.get(k)`. -/
def hitsGet (h : Hits) (k : String) : Option RateLimitRecord :=
  match h with
  | [] => none
  | (k2, r) :: rest => if k2 = k then some r else hitsGet rest k

/-- `hits.set(k, r)`: replace the binding for `k` or append a fresh one. -/
def hitsSet (h : Hits) (k : String) (r : RateLimitRecord) : Hits :=
  match h with
  | [] => [(k, r)]
  | (k2, r2) :: rest =>
    if k2 = k then (k, r) :: rest else (k2, r2) :: hitsSet rest k r

/-- The response body: `{ "error": msg }` or `{ "reply": text }`. -/
inductive RespBody where
  | errObj (msg : String)
  | replyObj (text : String)
deriving DecidableEq, Repr

/-- The response the handler produces: status code, the `Allow` and
`Retry-After` headers when set, and the JSON body. -/
structure Response where
  status : Nat
  allow : Option String
  retryAfter : Option Nat
  body : RespBody
deriving DecidableEq, Repr

/-- Everything observable about one handler invocation: the response, the
updated `hits` map, whether the timeout timer was started (`setTimeout`
reached), whether it was cleared (`clearTimeout` executed), and whether the
upstream `fetch` was issued. -/
structure HandlerResult where
  response : Response
  hits : Hits
  timerStarted : Bool
  timerCleared : Bool
  upstreamCalled : Bool

/-- `data.choices[i].message` — the message object of one candidate. -/
structure UpstreamMsg where
  content : Option String
deriving DecidableEq, Repr

/-- One element of `data.choices`. -/
structure UpstreamChoice where
  message : Option UpstreamMsg
deriving DecidableEq, Repr

/-- `data.error` — the upstream error object, whose `message` may be
absent. -/
structure UpstreamErr where
  message : Option String
deriving DecidableEq, Repr

/-- The parsed upstream JSON body: the fields the handler reads, each
possibly absent. -/
structure UpstreamData where
  choices : Option (List UpstreamChoice)
  error : Option UpstreamErr
deriving DecidableEq, Repr

/-- How `r.json()` settles: a parsed body or a rejection. -/
inductive JsonOutcome where
  | ok (d : UpstreamData)
  | fail
deriving DecidableEq, Repr

/-- How the `fetch` promise settles: resolved with an HTTP response whose
`ok` flag and (lazily read) JSON body are given; rejected with an
`AbortError` (the timeout timer fired and aborted the call); or rejected
with any other error (network failure etc.). -/
inductive FetchOutcome where
  | resolved (ok : Bool) (json : JsonOutcome)
  | abortRejected
  | otherRejected
deriving DecidableEq, Repr

/-- JS `String.prototype.trim()`: drop whitespace from both ends, modelled
over the string's character list. -/
def jsTrim (s : String) : String :=
  ⟨((s.data.dropWhile Char.isWhitespace).reverse.dropWhile Char.isWhitespace).reverse⟩

/-- JS `s.split(",")[0]`: the characters before the first comma (the whole
string when it has no comma). -/
def firstCommaSegment (s : String) : String :=
  ⟨s.data.takeWhile (fun c => c ≠ ',')⟩

/-- `const { message } = req.body || {}` followed by the guard
`typeof message !== "string" || !message.trim()`: returns the (untrimmed)
message exactly when it is a string that is non-empty after trimming. -/
def getMessage (body : Option ReqBody) : Option String :=
  match body with
  | none => none
  | some b =>
    match b.message with
    | some (.str s) => if jsTrim s = "" then none else some s
    | _ => none

/-- Caller-key derivation:
`req.headers["x-forwarded-for"]?.toString().split(",")[0].trim()
 || req.socket?.remoteAddress || "unknown"` (JS `||`, so an empty string
falls through to the next alternative). -/
def deriveIp (req : Request) : String :=
  let fromHeader : Option String :=
    match req.xForwardedFor with
    | none => none
    | some s =>
      let first := jsTrim (firstCommaSegment s)
      if first = "" then none else some first
  match fromHeader with
  | some ip => ip
  | none =>
    match req.remoteAddress with
    | some r => if r = "" then "unknown" else r
    | none => "unknown"

/-- `Math.ceil(ms / 1000)` for a non-negative millisecond count. -/
def ceilSeconds (ms : Int) : Nat := (ms.toNat + 999) / 1000

/-- The 405 early exit: `res.setHeader("Allow", "POST")` then
`res.status(405).json({ error: "Use POST" })`; `hits` untouched, no timer,
no upstream call. -/
def reject405 (h : Hits) : HandlerResult :=
  ⟨⟨405, some "POST", none, .errObj "Use POST"⟩, h, false, false, false⟩

/-- The 400 early exit: `res.status(400).json({ error: "Missing message" })`. -/
def reject400 (h : Hits) : HandlerResult :=
  ⟨⟨400, none, none, .errObj "Missing message"⟩, h, false, false, false⟩

/-- The rendered 413 message: `` `Message too long (max ${MAX_INPUT_CHARS} chars).` `` -/
def tooLongMsg : String :=
  "Message too long (max " ++ toString MAX_INPUT_CHARS ++ " chars)."

/-- The 413 early exit. -/
def reject413 (h : Hits) : HandlerResult :=
  ⟨⟨413, none, none, .errObj tooLongMsg⟩, h, false, false, false⟩

/-- `data?.choices?.[0]?.message?.content?.trim() ?? ""`. -/
def extractReply (d : UpstreamData) : String :=
  match d.choices with
  | none => ""
  | some [] => ""
  | some (c :: _) =>
    match c.message with
    | none => ""
    | some m =>
      match m.content with
      | none => ""
      | some s => jsTrim s

/-- `data?.error?.message || "Upstream error."` (JS `||`: an empty-string
message also falls through to the generic text). -/
def upstreamErrMsg (d : UpstreamData) : String :=
  match d.error with
  | none => "Upstream error."
  | some e =>
    match e.message with
    | none => "Upstream error."
    | some m => if m = "" then "Upstream error." else m

/-- The code from `setTimeout` through the final `res.status(200)`, given
how the fetch settled.  Paths:
* fetch rejected with a non-abort error: the `.catch` rethrows it *before*
  `clearTimeout(tid)` runs, the outer `catch` answers 500 — timer started
  but never cleared;
* fetch rejected with `AbortError`: the `.catch` converts it to
  `{ ok: false, aborted: true }`, `clearTimeout` runs, 504;
* fetch resolved non-ok: `clearTimeout` runs, `r.json().catch(() => ({}))`
  supplies `{}` on parse failure, 502 with the upstream message;
* fetch resolved ok: `clearTimeout` runs; `await r.json()` without a catch,
  so a parse failure reaches the outer `catch` (500); otherwise 200 with
  the extracted reply. -/
def upstreamPhase (h : Hits) (f : FetchOutcome) : HandlerResult :=
  match f with
  | .otherRejected =>
    ⟨⟨500, none, none, .errObj "Server error."⟩, h, true, false, true⟩
  | .abortRejected =>
    ⟨⟨504, none, none, .errObj "Upstream timeout."⟩, h, true, true, true⟩
  | .resolved ok json =>
    if ok then
      match json with
      | .ok d => ⟨⟨200, none, none, .replyObj (extractReply d)⟩, h, true, true, true⟩
      | .fail => ⟨⟨500, none, none, .errObj "Server error."⟩, h, true, true, true⟩
    else
      let d := match json with | .ok d => d | .fail => ⟨none, none⟩
      ⟨⟨502, none, none, .errObj (upstreamErrMsg d)⟩, h, true, true, true⟩

/-- The rate-limit block and everything after it, entered once the method
and the message have been validated:
`rec = hits.get(ip) || { count: 0, windowStart: now }`; reset when
`now - windowStart > WINDOW_MS`; increment; `hits.set`; reject 429 with a
`Retry-After` of `Math.ceil(max(0, WINDOW_MS - (now - windowStart))/1000)`
when the count exceeds the maximum; otherwise run the upstream phase.
`bumpRecord` is the record as it stands right after `rec.count += 1`:
`rec = hits.get(ip) || { count: 0, windowStart: now }`, reset when
`now - windowStart > WINDOW_MS`, then incremented. -/
def bumpRecord (h : Hits) (ip : String) (now : Int) : RateLimitRecord :=
  let r0 := (hitsGet h ip).getD ⟨0, now⟩
  let r1 := if now - r0.windowStart > WINDOW_MS then (⟨0, now⟩ : RateLimitRecord) else r0
  ⟨r1.count + 1, r1.windowStart⟩

/-- The rate-limit decision and everything after it: store the bumped
record, reject 429 when it exceeds the maximum, else call upstream. -/
def afterValidation (h : Hits) (ip : String) (now : Int) (f : FetchOutcome) :
    HandlerResult :=
  let r2 := bumpRecord h ip now
  let h2 := hitsSet h ip r2
  if r2.count > MAX_REQ_PER_WINDOW then
    ⟨⟨429, none, some (ceilSeconds (max 0 (WINDOW_MS - (now - r2.windowStart)))),
      .errObj "Too many requests. Try again shortly."⟩, h2, false, false, false⟩
  else
    upstreamPhase h2 f

/-- The whole handler, as a function of the current `hits` map, the
request, the current time and the fetch oracle. -/
def handler (h : Hits) (req : Request) (now : Int) (f : FetchOutcome) :
    HandlerResult :=
  if req.method ≠ "POST" then reject405 h
  else
    match getMessage req.body with
    | none => reject400 h
    | some s =>
      if s.length > MAX_INPUT_CHARS then reject413 h
      else afterValidation h (deriveIp req) now f

/-- Sequential handling of the same request at each time in `ts`, threading
the `hits` map; returns the final map and the per-request results. -/
def runSeq (h : Hits) (req : Request) (f : FetchOutcome) :
    List Int → Hits × List HandlerResult
  | [] => (h, [])
  | t :: rest =>
    let r := handler h req t f
    let p := runSeq r.hits req f rest
    (p.1, r :: p.2)

/-- `t` occurs as a contiguous run of characters inside `s`
(the substring test behind JS `String.prototype.includes`). -/
def listContains : List Char → List Char → Bool
  | t, [] => t.isEmpty
  | t, c :: rest => t.isPrefixOf (c :: rest) || listContains t rest

/-- The field path `choices[0].message.content` as an optional chain: the
first candidate's text content, when every field along the path is
present. -/
def replyPath (d : UpstreamData) : Option String :=
  ((d.choices.bind List.head?).bind UpstreamChoice.message).bind UpstreamMsg.content

/-- A well-formed POST request with message `"hello"` from `1.2.3.4`,
used by the witnesses. -/
def sampleReq : Request := ⟨"POST", some ⟨some (.str "hello")⟩, none, some "1.2.3.4"⟩

/-- A fetch oracle for the witnesses: resolved ok with one candidate whose
content is `"Hi there"`. -/
def sampleFetch : FetchOutcome :=
  .resolved true (.ok ⟨some [⟨some ⟨some "Hi there"⟩⟩], none⟩)

/-- Modelled from the spec: no content-filter code exists under `src/` —
the handler there goes straight from the length check to the rate limiter.
Spec §4.1 describes a validator that "fails with `ContentRejected` when the
message matches a configured denylist of disallowed terms/patterns
(case-insensitive substring/pattern match)", with the term list treated as
configuration.  This is that match: some denylist term occurs, ignoring
case, as a substring of the message. -/
def denylistMatches (deny : List String) (msg : String) : Bool :=
  deny.any fun t =>
    listContains (t.data.map Char.toLower) (msg.data.map Char.toLower)

/-- Modelled from the spec: the handler with the missing content filter
inserted where spec §4.4's transition table places it — after the message
is validated for shape and length and before the rate limiter — responding
400 and never reaching the upstream call (`Validated` → `Responded` on a
denylist match). -/
def handlerWithFilter (deny : List String) (h : Hits) (req : Request)
    (now : Int) (f : FetchOutcome) : HandlerResult :=
  if req.method ≠ "POST" then reject405 h
  else
    match getMessage req.body with
    | none => reject400 h
    | some s =>
      if s.length > MAX_INPUT_CHARS then reject413 h
      else if denylistMatches deny s then
        ⟨⟨400, none, none, .errObj "Content rejected."⟩, h, false, false, false⟩
      else afterValidation h (deriveIp req) now f

/-! ### Basic lemmas about the `hits` map and the phases of the handler -/

theorem hitsGet_hitsSet_self (h : Hits) (k : String) (r : RateLimitRecord) :
    hitsGet (hitsSet h k r) k = some r := by
  induction h with
  | nil => simp [hitsGet, hitsSet]
  | cons p rest ih =>
    by_cases hk : p.1 = k
    · simp [hitsGet, hitsSet, hk]
    · simp [hitsGet, hitsSet, hk, ih]

theorem upstreamPhase_hits (h : Hits) (f : FetchOutcome) :
    (upstreamPhase h f).hits = h := by
  cases f with
  | resolved ok json => cases ok <;> cases json <;> simp [upstreamPhase]
  | abortRejected => rfl
  | otherRejected => rfl

theorem upstreamPhase_called (h : Hits) (f : FetchOutcome) :
    (upstreamPhase h f).upstreamCalled = true := by
  cases f with
  | resolved ok json => cases ok <;> cases json <;> simp [upstreamPhase]
  | abortRejected => rfl
  | otherRejected => rfl

theorem upstreamPhase_status_ne_429 (h : Hits) (f : FetchOutcome) :
    (upstreamPhase h f).response.status ≠ 429 := by
  cases f with
  | resolved ok json => cases ok <;> cases json <;> simp [upstreamPhase]
  | abortRejected => simp [upstreamPhase]
  | otherRejected => simp [upstreamPhase]

theorem bumpRecord_fresh (h : Hits) (ip : String) (now : Int)
    (hfresh : hitsGet h ip = none) :
    bumpRecord h ip now = ⟨1, now⟩ := by
  simp [bumpRecord, hfresh, WINDOW_MS]

theorem bumpRecord_in_window (h : Hits) (ip : String) (now : Int)
    (c : Nat) (ws : Int) (hrec : hitsGet h ip = some ⟨c, ws⟩)
    (hin : ¬ now - ws > WINDOW_MS) :
    bumpRecord h ip now = ⟨c + 1, ws⟩ := by
  simp [bumpRecord, hrec, hin]

theorem bumpRecord_expired (h : Hits) (ip : String) (now : Int)
    (c : Nat) (ws : Int) (hrec : hitsGet h ip = some ⟨c, ws⟩)
    (hexp : now - ws > WINDOW_MS) :
    bumpRecord h ip now = ⟨1, now⟩ := by
  have hexp2 : (60000 : Int) < now - ws := by simpa [WINDOW_MS] using hexp
  simp [bumpRecord, hrec, hexp2, WINDOW_MS]

theorem afterValidation_fresh (h : Hits) (ip : String) (now : Int)
    (f : FetchOutcome) (hfresh : hitsGet h ip = none) :
    afterValidation h ip now f = upstreamPhase (hitsSet h ip ⟨1, now⟩) f := by
  simp [afterValidation, bumpRecord_fresh h ip now hfresh, MAX_REQ_PER_WINDOW]

theorem afterValidation_in_window_pass (h : Hits) (ip : String) (now : Int)
    (f : FetchOutcome) (c : Nat) (ws : Int)
    (hrec : hitsGet h ip = some ⟨c, ws⟩) (hin : ¬ now - ws > WINDOW_MS)
    (hcap : c + 1 ≤ MAX_REQ_PER_WINDOW) :
    afterValidation h ip now f = upstreamPhase (hitsSet h ip ⟨c + 1, ws⟩) f := by
  simp [afterValidation, bumpRecord_in_window h ip now c ws hrec hin,
    Nat.not_lt_of_le hcap]

theorem afterValidation_in_window_reject (h : Hits) (ip : String) (now : Int)
    (f : FetchOutcome) (c : Nat) (ws : Int)
    (hrec : hitsGet h ip = some ⟨c, ws⟩) (hin : ¬ now - ws > WINDOW_MS)
    (hover : c + 1 > MAX_REQ_PER_WINDOW) :
    afterValidation h ip now f =
      ⟨⟨429, none, some (ceilSeconds (max 0 (WINDOW_MS - (now - ws)))),
        .errObj "Too many requests. Try again shortly."⟩,
       hitsSet h ip ⟨c + 1, ws⟩, false, false, false⟩ := by
  simp [afterValidation, bumpRecord_in_window h ip now c ws hrec hin, hover]

theorem afterValidation_expired (h : Hits) (ip : String) (now : Int)
    (f : FetchOutcome) (c : Nat) (ws : Int)
    (hrec : hitsGet h ip = some ⟨c, ws⟩) (hexp : now - ws > WINDOW_MS) :
    afterValidation h ip now f = upstreamPhase (hitsSet h ip ⟨1, now⟩) f := by
  simp [afterValidation, bumpRecord_expired h ip now c ws hrec hexp,
    MAX_REQ_PER_WINDOW]

theorem handler_valid (h : Hits) (req : Request) (now : Int) (f : FetchOutcome)
    (s : String) (hm : req.method = "POST") (hmsg : getMessage req.body = some s)
    (hlen : s.length ≤ MAX_INPUT_CHARS) :
    handler h req now f = afterValidation h (deriveIp req) now f := by
  simp [handler, hm, hmsg, Nat.not_lt_of_le hlen]

/-- While a key's window is still open, each valid request for that key
increments its count by one and is admitted as long as the count stays
within the maximum; the window start never moves. -/
theorem runSeq_in_window (req : Request) (s : String) (f : FetchOutcome)
    (hm : req.method = "POST") (hmsg : getMessage req.body = some s)
    (hlen : s.length ≤ MAX_INPUT_CHARS)
    (t1 : Int) (ts : List Int) (h : Hits) (c : Nat)
    (hrec : hitsGet h (deriveIp req) = some ⟨c, t1⟩)
    (hin : ∀ t ∈ ts, t1 ≤ t ∧ t ≤ t1 + WINDOW_MS)
    (hcap : c + ts.length ≤ MAX_REQ_PER_WINDOW) :
    hitsGet (runSeq h req f ts).1 (deriveIp req) = some ⟨c + ts.length, t1⟩ ∧
    ∀ r ∈ (runSeq h req f ts).2,
      r.response.status ≠ 429 ∧ r.upstreamCalled = true := by
  induction ts generalizing h c with
  | nil =>
    refine ⟨by simpa [runSeq] using hrec, ?_⟩
    intro r hr
    simp [runSeq] at hr
  | cons t rest ih =>
    obtain ⟨ht1, ht2⟩ := hin t (by simp)
    have hnot : ¬ t - t1 > WINDOW_MS := by
      simp only [WINDOW_MS] at ht2 ⊢
      omega
    have hcap1 : c + 1 ≤ MAX_REQ_PER_WINDOW := by
      simp only [List.length_cons] at hcap
      omega
    have hstep : handler h req t f =
        upstreamPhase (hitsSet h (deriveIp req) ⟨c + 1, t1⟩) f :=
      (handler_valid h req t f s hm hmsg hlen).trans
        (afterValidation_in_window_pass h (deriveIp req) t f c t1 hrec hnot hcap1)
    have hrec2 : hitsGet (handler h req t f).hits (deriveIp req) =
        some ⟨c + 1, t1⟩ := by
      rw [hstep, upstreamPhase_hits]
      exact hitsGet_hitsSet_self _ _ _
    have hcap2 : (c + 1) + rest.length ≤ MAX_REQ_PER_WINDOW := by
      simp only [List.length_cons] at hcap
      omega
    obtain ⟨ihget, ihall⟩ := ih (handler h req t f).hits (c + 1) hrec2
      (fun u hu => hin u (by simp [hu])) hcap2
    constructor
    · simpa [runSeq, List.length_cons, Nat.add_right_comm, Nat.add_assoc] using ihget
    · intro r hr
      simp only [runSeq, List.mem_cons] at hr
      rcases hr with hr | hr
      · subst hr
        rw [hstep]
        exact ⟨upstreamPhase_status_ne_429 _ _, upstreamPhase_called _ _⟩
      · exact ihall r hr

/-- Every invocation either passes the whole admission guard — and then the
outcome is `upstreamPhase` on an updated map that does not depend on how the
fetch settles — or is rejected before `setTimeout`, with no timer started
and no upstream call, whatever the fetch oracle says. -/
theorem handler_admission (h : Hits) (req : Request) (now : Int) :
    (∃ h2, ∀ g, handler h req now g = upstreamPhase h2 g) ∨
    (∀ g : FetchOutcome, (handler h req now g).timerStarted = false ∧
      (handler h req now g).upstreamCalled = false) := by
  by_cases hm : req.method ≠ "POST"
  · right
    intro g
    simp [handler, hm, reject405]
  · cases hmsg : getMessage req.body with
    | none =>
      right
      intro g
      simp [handler, hm, hmsg, reject400]
    | some s =>
      by_cases hlen : s.length > MAX_INPUT_CHARS
      · right
        intro g
        simp [handler, hm, hmsg, hlen, reject413]
      · have hv : ∀ g, handler h req now g = afterValidation h (deriveIp req) now g :=
          fun g => handler_valid h req now g s (not_not.mp hm) hmsg (Nat.le_of_not_lt hlen)
        by_cases hc : (bumpRecord h (deriveIp req) now).count > MAX_REQ_PER_WINDOW
        · right
          intro g
          rw [hv g]
          simp [afterValidation, hc]
        · left
          refine ⟨hitsSet h (deriveIp req) (bumpRecord h (deriveIp req) now), fun g => ?_⟩
          rw [hv g]
          simp [afterValidation, hc]

/-! ### Claims -/

/-- C1: fixed-window rate limiting per caller key.  Starting from a state
where the key is fresh, a valid request at `t1` followed by
`MAX_REQ_PER_WINDOW - 1` valid requests inside the window `[t1, t1 + WINDOW_MS]`
are all admitted (never 429, upstream called); the `(MAX_REQ_PER_WINDOW + 1)`-th
request, still inside the window, is rejected with status 429 and a
`Retry-After` header equal to `ceil(max(0, WINDOW_MS - (now - windowStart)) / 1000)`
seconds, which is at most the window duration in seconds; and once
`now - windowStart > WINDOW_MS` the record for the key is reset, so the
key's next request is admitted with a fresh count of 1. -/
theorem c1_fixed_window_rate_limit
    (req : Request) (s : String) (f : FetchOutcome)
    (hm : req.method = "POST") (hmsg : getMessage req.body = some s)
    (hlen : s.length ≤ MAX_INPUT_CHARS)
    (h0 : Hits) (hfresh : hitsGet h0 (deriveIp req) = none)
    (t1 : Int) (rest : List Int) (hrest : rest.length = MAX_REQ_PER_WINDOW - 1)
    (hin : ∀ t ∈ rest, t1 ≤ t ∧ t ≤ t1 + WINDOW_MS)
    (t21 : Int) (ht21a : t1 ≤ t21) (ht21b : t21 ≤ t1 + WINDOW_MS)
    (hR : Hits) (cR : Nat) (wsR tR : Int)
    (hRrec : hitsGet hR (deriveIp req) = some ⟨cR, wsR⟩)
    (hRexp : tR - wsR > WINDOW_MS) :
    ((runSeq h0 req f (t1 :: rest)).2.all
        (fun r => (r.response.status != 429) && r.upstreamCalled)) = true ∧
    (handler (runSeq h0 req f (t1 :: rest)).1 req t21 f).response.status = 429 ∧
    (handler (runSeq h0 req f (t1 :: rest)).1 req t21 f).upstreamCalled = false ∧
    (handler (runSeq h0 req f (t1 :: rest)).1 req t21 f).response.retryAfter =
      some (ceilSeconds (max 0 (WINDOW_MS - (t21 - t1)))) ∧
    ceilSeconds (max 0 (WINDOW_MS - (t21 - t1))) ≤ 60 ∧
    (handler hR req tR f).upstreamCalled = true ∧
    hitsGet (handler hR req tR f).hits (deriveIp req) = some ⟨1, tR⟩ := by
  have hstep1 : handler h0 req t1 f =
      upstreamPhase (hitsSet h0 (deriveIp req) ⟨1, t1⟩) f :=
    (handler_valid h0 req t1 f s hm hmsg hlen).trans
      (afterValidation_fresh h0 (deriveIp req) t1 f hfresh)
  have hrec1 : hitsGet (handler h0 req t1 f).hits (deriveIp req) =
      some ⟨1, t1⟩ := by
    rw [hstep1, upstreamPhase_hits]
    exact hitsGet_hitsSet_self _ _ _
  have hcap : 1 + rest.length ≤ MAX_REQ_PER_WINDOW := by
    rw [hrest]
    simp [MAX_REQ_PER_WINDOW]
  obtain ⟨hget, hall⟩ := runSeq_in_window req s f hm hmsg hlen t1 rest
    (handler h0 req t1 f).hits 1 hrec1 hin hcap
  have hget20 : hitsGet (runSeq h0 req f (t1 :: rest)).1 (deriveIp req) =
      some ⟨MAX_REQ_PER_WINDOW, t1⟩ := by
    have h1l : 1 + rest.length = MAX_REQ_PER_WINDOW := by
      rw [hrest]
      simp [MAX_REQ_PER_WINDOW]
    simpa [runSeq, h1l] using hget
  have hnot21 : ¬ t21 - t1 > WINDOW_MS := by
    simp only [WINDOW_MS] at ht21b ⊢
    omega
  have hover : MAX_REQ_PER_WINDOW + 1 > MAX_REQ_PER_WINDOW := Nat.lt_succ_self _
  have hstep21 : handler (runSeq h0 req f (t1 :: rest)).1 req t21 f =
      ⟨⟨429, none, some (ceilSeconds (max 0 (WINDOW_MS - (t21 - t1)))),
        .errObj "Too many requests. Try again shortly."⟩,
       hitsSet (runSeq h0 req f (t1 :: rest)).1 (deriveIp req)
         ⟨MAX_REQ_PER_WINDOW + 1, t1⟩, false, false, false⟩ :=
    (handler_valid _ req t21 f s hm hmsg hlen).trans
      (afterValidation_in_window_reject _ (deriveIp req) t21 f
        MAX_REQ_PER_WINDOW t1 hget20 hnot21 hover)
  have hbound : ceilSeconds (max 0 (WINDOW_MS - (t21 - t1))) ≤ 60 := by
    have hx : (max 0 (WINDOW_MS - (t21 - t1))).toNat ≤ 60000 := by
      simp only [WINDOW_MS]
      omega
    calc ceilSeconds (max 0 (WINDOW_MS - (t21 - t1)))
        = ((max 0 (WINDOW_MS - (t21 - t1))).toNat + 999) / 1000 := rfl
      _ ≤ 60999 / 1000 := Nat.div_le_div_right (by omega)
      _ = 60 := by norm_num
  have hreset : handler hR req tR f =
      upstreamPhase (hitsSet hR (deriveIp req) ⟨1, tR⟩) f :=
    (handler_valid hR req tR f s hm hmsg hlen).trans
      (afterValidation_expired hR (deriveIp req) tR f cR wsR hRrec hRexp)
  refine ⟨?_, ?_, ?_, ?_, hbound, ?_, ?_⟩
  · rw [List.all_eq_true]
    intro r hr
    simp only [runSeq, List.mem_cons] at hr
    rcases hr with hr | hr
    · subst hr
      rw [hstep1]
      simp [upstreamPhase_status_ne_429, upstreamPhase_called]
    · obtain ⟨hne, hup⟩ := hall r hr
      simp [hne, hup]
  · rw [hstep21]
  · rw [hstep21]
  · rw [hstep21]
  · rw [hreset]
    exact upstreamPhase_called _ _
  · rw [hreset, upstreamPhase_hits]
    exact hitsGet_hitsSet_self _ _ _

/-- C1 witness: 20 requests at times 0, 5, …, 5 from a fresh key are all
admitted, the 21st at 30000 is rejected with 429 and the stated
`Retry-After`, and a key whose window has expired is re-admitted with a
fresh count of 1. -/
theorem c1_fixed_window_rate_limit_witness :
    ((runSeq [] sampleReq sampleFetch ((0 : Int) :: List.replicate 19 (5 : Int))).2.all
        (fun r => (r.response.status != 429) && r.upstreamCalled)) = true ∧
    (handler (runSeq [] sampleReq sampleFetch ((0 : Int) :: List.replicate 19 (5 : Int))).1
        sampleReq 30000 sampleFetch).response.status = 429 ∧
    (handler (runSeq [] sampleReq sampleFetch ((0 : Int) :: List.replicate 19 (5 : Int))).1
        sampleReq 30000 sampleFetch).upstreamCalled = false ∧
    (handler (runSeq [] sampleReq sampleFetch ((0 : Int) :: List.replicate 19 (5 : Int))).1
        sampleReq 30000 sampleFetch).response.retryAfter =
      some (ceilSeconds (max 0 (WINDOW_MS - (30000 - 0)))) ∧
    ceilSeconds (max 0 (WINDOW_MS - (30000 - 0))) ≤ 60 ∧
    (handler [("1.2.3.4", ⟨7, 0⟩)] sampleReq 70000 sampleFetch).upstreamCalled = true ∧
    hitsGet (handler [("1.2.3.4", ⟨7, 0⟩)] sampleReq 70000 sampleFetch).hits
      (deriveIp sampleReq) = some ⟨1, 70000⟩ :=
  c1_fixed_window_rate_limit sampleReq "hello" sampleFetch (by decide) (by decide)
    (by decide) [] (by decide) 0 (List.replicate 19 (5 : Int)) (by decide)
    (by decide) 30000 (by decide) (by decide) [("1.2.3.4", ⟨7, 0⟩)] 7 0 70000
    (by decide) (by decide)

/-- C8: every request whose method is not POST is answered 405 with an
`Allow: POST` header before any other processing — no rate-limit state is
touched, no timer is started, no upstream call is made. -/
theorem c8_non_post_rejected (h : Hits) (req : Request) (now : Int)
    (f : FetchOutcome) (hm : req.method ≠ "POST") :
    (handler h req now f).response.status = 405 ∧
    (handler h req now f).response.allow = some "POST" ∧
    (handler h req now f).response.body = .errObj "Use POST" ∧
    (handler h req now f).hits = h ∧
    (handler h req now f).timerStarted = false ∧
    (handler h req now f).upstreamCalled = false := by
  simp [handler, hm, reject405]

/-- C8 witness: a GET request is answered 405 with `Allow: POST`. -/
theorem c8_non_post_rejected_witness :
    (handler [] ⟨"GET", some ⟨some (.str "hello")⟩, none, some "1.2.3.4"⟩ 0
        sampleFetch).response.status = 405 ∧
    (handler [] ⟨"GET", some ⟨some (.str "hello")⟩, none, some "1.2.3.4"⟩ 0
        sampleFetch).response.allow = some "POST" ∧
    (handler [] ⟨"GET", some ⟨some (.str "hello")⟩, none, some "1.2.3.4"⟩ 0
        sampleFetch).response.body = .errObj "Use POST" ∧
    (handler [] ⟨"GET", some ⟨some (.str "hello")⟩, none, some "1.2.3.4"⟩ 0
        sampleFetch).hits = [] ∧
    (handler [] ⟨"GET", some ⟨some (.str "hello")⟩, none, some "1.2.3.4"⟩ 0
        sampleFetch).timerStarted = false ∧
    (handler [] ⟨"GET", some ⟨some (.str "hello")⟩, none, some "1.2.3.4"⟩ 0
        sampleFetch).upstreamCalled = false :=
  c8_non_post_rejected [] ⟨"GET", some ⟨some (.str "hello")⟩, none, some "1.2.3.4"⟩ 0
    sampleFetch (by decide)

/-- C7: every POST request whose body lacks a `message` field, whose
`message` is not a string, or whose `message` is empty after trimming
whitespace is answered 400. -/
theorem c7_missing_message_rejected (h : Hits) (req : Request) (now : Int)
    (f : FetchOutcome) (hm : req.method = "POST")
    (hbad : req.body.bind ReqBody.message = none ∨
            req.body.bind ReqBody.message = some .nonStr ∨
            ∃ s, req.body.bind ReqBody.message = some (.str s) ∧ jsTrim s = "") :
    (handler h req now f).response.status = 400 ∧
    (handler h req now f).response.body = .errObj "Missing message" := by
  have hnone : getMessage req.body = none := by
    cases hb : req.body with
    | none => rfl
    | some b =>
      rw [hb] at hbad
      simp only [Option.some_bind] at hbad
      rcases hbad with h1 | h1 | ⟨s, h1, h2⟩
      · simp [getMessage, h1]
      · simp [getMessage, h1]
      · simp [getMessage, h1, h2]
  simp [handler, hm, hnone, reject400]

/-- C7 witness: a body with no `message` field, a non-string `message`, and
a whitespace-only `message` each draw a 400. -/
theorem c7_missing_message_rejected_witness :
    ((handler [] ⟨"POST", none, none, none⟩ 0 sampleFetch).response.status = 400 ∧
     (handler [] ⟨"POST", none, none, none⟩ 0 sampleFetch).response.body =
       .errObj "Missing message") ∧
    ((handler [] ⟨"POST", some ⟨some .nonStr⟩, none, none⟩ 0
        sampleFetch).response.status = 400 ∧
     (handler [] ⟨"POST", some ⟨some .nonStr⟩, none, none⟩ 0
        sampleFetch).response.body = .errObj "Missing message") ∧
    ((handler [] ⟨"POST", some ⟨some (.str "  ")⟩, none, none⟩ 0
        sampleFetch).response.status = 400 ∧
     (handler [] ⟨"POST", some ⟨some (.str "  ")⟩, none, none⟩ 0
        sampleFetch).response.body = .errObj "Missing message") :=
  ⟨c7_missing_message_rejected [] ⟨"POST", none, none, none⟩ 0 sampleFetch
      (by decide) (Or.inl (by decide)),
   c7_missing_message_rejected [] ⟨"POST", some ⟨some .nonStr⟩, none, none⟩ 0
      sampleFetch (by decide) (Or.inr (Or.inl (by decide))),
   c7_missing_message_rejected [] ⟨"POST", some ⟨some (.str "  ")⟩, none, none⟩ 0
      sampleFetch (by decide) (Or.inr (Or.inr ⟨"  ", by decide, by decide⟩))⟩

/-- C6: every message whose length (a character count — `s.length` counts
the characters of `s`, not tokens) exceeds `MAX_INPUT_CHARS = 700` is
answered 413, with an error message that names that maximum. -/
theorem c6_too_long_rejected (h : Hits) (req : Request) (now : Int)
    (f : FetchOutcome) (s : String) (hm : req.method = "POST")
    (hmsg : getMessage req.body = some s) (hlen : s.length > MAX_INPUT_CHARS) :
    (handler h req now f).response.status = 413 ∧
    (handler h req now f).response.body = .errObj tooLongMsg ∧
    tooLongMsg = "Message too long (max 700 chars)." ∧
    listContains (toString MAX_INPUT_CHARS).data tooLongMsg.data = true ∧
    MAX_INPUT_CHARS = 700 := by
  refine ⟨?_, ?_, by decide, by decide, by decide⟩ <;>
    simp [handler, hm, hmsg, hlen, reject413]

set_option maxRecDepth 8000 in
/-- C6 witness: a 701-character message draws a 413 whose error text names
the 700-character maximum. -/
theorem c6_too_long_rejected_witness :
    (handler [] ⟨"POST", some ⟨some (.str ⟨List.replicate 701 'a'⟩)⟩, none, none⟩ 0
        sampleFetch).response.status = 413 ∧
    (handler [] ⟨"POST", some ⟨some (.str ⟨List.replicate 701 'a'⟩)⟩, none, none⟩ 0
        sampleFetch).response.body = .errObj tooLongMsg ∧
    tooLongMsg = "Message too long (max 700 chars)." ∧
    listContains (toString MAX_INPUT_CHARS).data tooLongMsg.data = true ∧
    MAX_INPUT_CHARS = 700 :=
  c6_too_long_rejected []
    ⟨"POST", some ⟨some (.str ⟨List.replicate 701 'a'⟩)⟩, none, none⟩ 0
    sampleFetch ⟨List.replicate 701 'a'⟩ (by decide) (by decide) (by decide)

/-- A string all of whose characters are whitespace trims to the empty
string. -/
theorem jsTrim_eq_empty_of_whitespace (s : String)
    (hws : ∀ c ∈ s.data, c.isWhitespace) : jsTrim s = "" := by
  have h1 : s.data.dropWhile Char.isWhitespace = [] :=
    List.dropWhile_eq_nil_iff.mpr hws
  simp [jsTrim, h1]

/-- C9: the emptiness check runs before the length check, and the length
check never sees a whitespace-only message: every POST whose `message` is a
string consisting only of whitespace characters is answered 400 (missing
message) and never 413, whatever its length. -/
theorem c9_whitespace_only_never_413 (h : Hits) (req : Request) (now : Int)
    (f : FetchOutcome) (s : String) (hm : req.method = "POST")
    (hmsg : req.body.bind ReqBody.message = some (.str s))
    (hws : ∀ c ∈ s.data, c.isWhitespace) :
    (handler h req now f).response.status = 400 ∧
    (handler h req now f).response.status ≠ 413 ∧
    (handler h req now f).response.body = .errObj "Missing message" := by
  have htrim := jsTrim_eq_empty_of_whitespace s hws
  have hnone : getMessage req.body = none := by
    cases hb : req.body with
    | none => simp [hb] at hmsg
    | some b =>
      rw [hb] at hmsg
      simp only [Option.some_bind] at hmsg
      simp [getMessage, hmsg, htrim]
  simp [handler, hm, hnone, reject400]

set_option maxRecDepth 8000 in
/-- C9 witness: a message of 701 spaces — longer than `MAX_INPUT_CHARS` —
is answered 400, not 413. -/
theorem c9_whitespace_only_never_413_witness :
    (String.mk (List.replicate 701 ' ')).length > MAX_INPUT_CHARS ∧
    (handler [] ⟨"POST", some ⟨some (.str ⟨List.replicate 701 ' '⟩)⟩, none, none⟩ 0
        sampleFetch).response.status = 400 ∧
    (handler [] ⟨"POST", some ⟨some (.str ⟨List.replicate 701 ' '⟩)⟩, none, none⟩ 0
        sampleFetch).response.status ≠ 413 ∧
    (handler [] ⟨"POST", some ⟨some (.str ⟨List.replicate 701 ' '⟩)⟩, none, none⟩ 0
        sampleFetch).response.body = .errObj "Missing message" :=
  ⟨by decide,
   c9_whitespace_only_never_413 []
     ⟨"POST", some ⟨some (.str ⟨List.replicate 701 ' '⟩)⟩, none, none⟩ 0
     sampleFetch ⟨List.replicate 701 ' '⟩ (by decide) (by decide) (by decide)⟩

/-- C10: requests rejected before the rate-limit step — wrong method (405),
missing/empty/non-string message (400), or over-length message (413) —
leave the `hits` map completely unchanged and never reach the upstream
call, so only requests that pass method and input validation consume
rate-limit budget. -/
theorem c10_early_rejects_preserve_hits (h : Hits) (req : Request) (now : Int)
    (f : FetchOutcome)
    (hbad : req.method ≠ "POST" ∨
            (req.method = "POST" ∧ getMessage req.body = none) ∨
            (req.method = "POST" ∧
              ∃ s, getMessage req.body = some s ∧ s.length > MAX_INPUT_CHARS)) :
    (handler h req now f).hits = h ∧
    (handler h req now f).upstreamCalled = false ∧
    ((handler h req now f).response.status = 405 ∨
     (handler h req now f).response.status = 400 ∨
     (handler h req now f).response.status = 413) := by
  rcases hbad with hm | ⟨hm, hmsg⟩ | ⟨hm, s, hmsg, hlen⟩
  · simp [handler, hm, reject405]
  · simp [handler, hm, hmsg, reject400]
  · simp [handler, hm, hmsg, hlen, reject413]

set_option maxRecDepth 8000 in
/-- C10 witness: a GET, a whitespace-only message and a 701-character
message each leave a non-trivial `hits` map exactly as it was. -/
theorem c10_early_rejects_preserve_hits_witness :
    ((handler [("k", ⟨3, 0⟩)] ⟨"GET", none, none, none⟩ 0 sampleFetch).hits =
        [("k", ⟨3, 0⟩)] ∧
     (handler [("k", ⟨3, 0⟩)] ⟨"GET", none, none, none⟩ 0
        sampleFetch).upstreamCalled = false ∧
     ((handler [("k", ⟨3, 0⟩)] ⟨"GET", none, none, none⟩ 0
          sampleFetch).response.status = 405 ∨
      (handler [("k", ⟨3, 0⟩)] ⟨"GET", none, none, none⟩ 0
          sampleFetch).response.status = 400 ∨
      (handler [("k", ⟨3, 0⟩)] ⟨"GET", none, none, none⟩ 0
          sampleFetch).response.status = 413)) ∧
    ((handler [("k", ⟨3, 0⟩)] ⟨"POST", some ⟨some (.str " ")⟩, none, none⟩ 0
        sampleFetch).hits = [("k", ⟨3, 0⟩)] ∧
     (handler [("k", ⟨3, 0⟩)] ⟨"POST", some ⟨some (.str " ")⟩, none, none⟩ 0
        sampleFetch).upstreamCalled = false ∧
     ((handler [("k", ⟨3, 0⟩)] ⟨"POST", some ⟨some (.str " ")⟩, none, none⟩ 0
          sampleFetch).response.status = 405 ∨
      (handler [("k", ⟨3, 0⟩)] ⟨"POST", some ⟨some (.str " ")⟩, none, none⟩ 0
          sampleFetch).response.status = 400 ∨
      (handler [("k", ⟨3, 0⟩)] ⟨"POST", some ⟨some (.str " ")⟩, none, none⟩ 0
          sampleFetch).response.status = 413)) ∧
    ((handler [("k", ⟨3, 0⟩)]
        ⟨"POST", some ⟨some (.str ⟨List.replicate 701 'a'⟩)⟩, none, none⟩ 0
        sampleFetch).hits = [("k", ⟨3, 0⟩)] ∧
     (handler [("k", ⟨3, 0⟩)]
        ⟨"POST", some ⟨some (.str ⟨List.replicate 701 'a'⟩)⟩, none, none⟩ 0
        sampleFetch).upstreamCalled = false ∧
     ((handler [("k", ⟨3, 0⟩)]
          ⟨"POST", some ⟨some (.str ⟨List.replicate 701 'a'⟩)⟩, none, none⟩ 0
          sampleFetch).response.status = 405 ∨
      (handler [("k", ⟨3, 0⟩)]
          ⟨"POST", some ⟨some (.str ⟨List.replicate 701 'a'⟩)⟩, none, none⟩ 0
          sampleFetch).response.status = 400 ∨
      (handler [("k", ⟨3, 0⟩)]
          ⟨"POST", some ⟨some (.str ⟨List.replicate 701 'a'⟩)⟩, none, none⟩ 0
          sampleFetch).response.status = 413)) :=
  ⟨c10_early_rejects_preserve_hits [("k", ⟨3, 0⟩)] ⟨"GET", none, none, none⟩ 0
      sampleFetch (Or.inl (by decide)),
   c10_early_rejects_preserve_hits [("k", ⟨3, 0⟩)]
      ⟨"POST", some ⟨some (.str " ")⟩, none, none⟩ 0 sampleFetch
      (Or.inr (Or.inl ⟨by decide, by decide⟩)),
   c10_early_rejects_preserve_hits [("k", ⟨3, 0⟩)]
      ⟨"POST", some ⟨some (.str ⟨List.replicate 701 'a'⟩)⟩, none, none⟩ 0
      sampleFetch
      (Or.inr (Or.inr ⟨by decide, ⟨List.replicate 701 'a'⟩, by decide, by decide⟩))⟩

/-- `extractReply` is the optional chain `choices[0].message.content`,
trimmed, defaulting to the empty string when any field along the path is
absent. -/
theorem extractReply_eq (d : UpstreamData) :
    extractReply d = ((replyPath d).map jsTrim).getD "" := by
  rcases d with ⟨choices, err⟩
  cases choices with
  | none => rfl
  | some l =>
    cases l with
    | nil => rfl
    | cons c rest =>
      rcases c with ⟨msg⟩
      cases msg with
      | none => rfl
      | some m =>
        rcases m with ⟨content⟩
        cases content <;> rfl

/-- C3 counterexample: it is not true that the timeout timer is cleared on
every completion of the fetch.  When the fetch rejects with a non-abort
error (network failure), the `.catch` rethrows it before
`clearTimeout(tid)` runs, so the handler answers 500 with the timer still
scheduled. -/
theorem c3_timer_leak_counterexample :
    ¬ ∀ (h : Hits) (req : Request) (now : Int) (f : FetchOutcome),
        (handler h req now f).timerStarted = true →
        (handler h req now f).timerCleared = true :=
  fun hall => absurd (hall [] sampleReq 0 .otherRejected (by decide)) (by decide)

/-- C3 (amended): on every completion of the fetch other than a rejection
with a non-abort error — i.e. on success, on an upstream error response,
and on timeout — the timer that was started before the call is cleared. -/
theorem c3_timer_cleared_amended (h : Hits) (req : Request) (now : Int)
    (f : FetchOutcome) (hf : f ≠ .otherRejected)
    (hst : (handler h req now f).timerStarted = true) :
    (handler h req now f).timerCleared = true := by
  rcases handler_admission h req now with ⟨h2, hall⟩ | hrej
  · rw [hall f] at hst ⊢
    cases f with
    | otherRejected => exact absurd rfl hf
    | abortRejected => rfl
    | resolved ok json => cases ok <;> cases json <;> simp [upstreamPhase]
  · rw [(hrej f).1] at hst
    exact absurd hst (by decide)

/-- C3 witness: on a successful fetch the timer is cleared. -/
theorem c3_timer_cleared_amended_witness :
    (handler [] sampleReq 0 sampleFetch).timerCleared = true :=
  c3_timer_cleared_amended [] sampleReq 0 sampleFetch (by decide) (by decide)

/-- C4: when the fetch is aborted (the `TIMEOUT_MS = 20000` timer fired and
cancelled the in-flight call through the abort controller), an admitted
request is answered 504 with body `{"error":"Upstream timeout."}` — an
outcome distinct from the 502 produced when the upstream resolves with an
error status. -/
theorem c4_timeout_504 (h : Hits) (req : Request) (now : Int)
    (j : JsonOutcome)
    (hup : (handler h req now .abortRejected).upstreamCalled = true) :
    (handler h req now .abortRejected).response.status = 504 ∧
    (handler h req now .abortRejected).response.body =
      .errObj "Upstream timeout." ∧
    (handler h req now (.resolved false j)).response.status = 502 ∧
    TIMEOUT_MS = 20000 := by
  rcases handler_admission h req now with ⟨h2, hall⟩ | hrej
  · rw [hall .abortRejected, hall (.resolved false j)]
    refine ⟨rfl, rfl, ?_, rfl⟩
    cases j <;> simp [upstreamPhase]
  · rw [(hrej .abortRejected).2] at hup
    exact absurd hup (by decide)

/-- C4 witness: an aborted fetch for a valid request yields
`504 {"error":"Upstream timeout."}`, while an error response yields 502. -/
theorem c4_timeout_504_witness :
    (handler [] sampleReq 0 .abortRejected).response.status = 504 ∧
    (handler [] sampleReq 0 .abortRejected).response.body =
      .errObj "Upstream timeout." ∧
    (handler [] sampleReq 0
        (.resolved false (.ok ⟨none, some ⟨some "boom"⟩⟩))).response.status = 502 ∧
    TIMEOUT_MS = 20000 :=
  c4_timeout_504 [] sampleReq 0 (.ok ⟨none, some ⟨some "boom"⟩⟩) (by decide)

/-- C5: on every upstream response with a success status, an admitted
request is answered 200 with `{"reply": t}` where `t` is the first
candidate's text content, trimmed, defaulting to the empty string when any
field along `choices[0].message.content` is absent — and no exception is
raised (the status is 200, not 500). -/
theorem c5_success_reply (h : Hits) (req : Request) (now : Int)
    (d : UpstreamData)
    (hup : (handler h req now (.resolved true (.ok d))).upstreamCalled = true) :
    (handler h req now (.resolved true (.ok d))).response.status = 200 ∧
    (handler h req now (.resolved true (.ok d))).response.body =
      .replyObj (((replyPath d).map jsTrim).getD "") := by
  rcases handler_admission h req now with ⟨h2, hall⟩ | hrej
  · rw [hall]
    simp [upstreamPhase, extractReply_eq]
  · rw [(hrej _).2] at hup
    exact absurd hup (by decide)

/-- C5 witness: a candidate with content `"  Hi there  "` is relayed as the
trimmed `"Hi there"`, and a body with no `choices` field at all is relayed
as the empty string, both with status 200. -/
theorem c5_success_reply_witness :
    ((handler [] sampleReq 0
        (.resolved true (.ok ⟨some [⟨some ⟨some "  Hi there  "⟩⟩], none⟩))).response.status = 200 ∧
     (handler [] sampleReq 0
        (.resolved true (.ok ⟨some [⟨some ⟨some "  Hi there  "⟩⟩], none⟩))).response.body =
       .replyObj (((replyPath ⟨some [⟨some ⟨some "  Hi there  "⟩⟩], none⟩).map jsTrim).getD "")) ∧
    ((handler [] sampleReq 0
        (.resolved true (.ok ⟨none, none⟩))).response.status = 200 ∧
     (handler [] sampleReq 0
        (.resolved true (.ok ⟨none, none⟩))).response.body =
       .replyObj (((replyPath ⟨none, none⟩).map jsTrim).getD "")) ∧
    ((replyPath (⟨some [⟨some ⟨some "  Hi there  "⟩⟩], none⟩ : UpstreamData)).map jsTrim).getD ""
      = "Hi there" ∧
    ((replyPath (⟨none, none⟩ : UpstreamData)).map jsTrim).getD "" = "" :=
  ⟨c5_success_reply [] sampleReq 0 ⟨some [⟨some ⟨some "  Hi there  "⟩⟩], none⟩ (by decide),
   c5_success_reply [] sampleReq 0 ⟨none, none⟩ (by decide),
   by decide, by decide⟩

/-- C2 (spec-modelled): for every request whose message matches the
configured denylist (case-insensitive substring match), the handler with
the spec's content filter responds 400 without calling the upstream
service, leaving the rate-limit map untouched and starting no timer. -/
theorem c2_denylist_rejected (deny : List String) (h : Hits) (req : Request)
    (now : Int) (f : FetchOutcome) (s : String)
    (hm : req.method = "POST") (hmsg : getMessage req.body = some s)
    (hlen : ¬ s.length > MAX_INPUT_CHARS)
    (hd : denylistMatches deny s = true) :
    (handlerWithFilter deny h req now f).response.status = 400 ∧
    (handlerWithFilter deny h req now f).upstreamCalled = false ∧
    (handlerWithFilter deny h req now f).timerStarted = false ∧
    (handlerWithFilter deny h req now f).hits = h := by
  simp [handlerWithFilter, hm, hmsg, hlen, hd]

/-- C2 witness: with denylist `["badword"]`, the message
`"some BadWord here"` is rejected 400 and the upstream is never called. -/
theorem c2_denylist_rejected_witness :
    (handlerWithFilter ["badword"] []
        ⟨"POST", some ⟨some (.str "some BadWord here")⟩, none, none⟩ 0
        sampleFetch).response.status = 400 ∧
    (handlerWithFilter ["badword"] []
        ⟨"POST", some ⟨some (.str "some BadWord here")⟩, none, none⟩ 0
        sampleFetch).upstreamCalled = false ∧
    (handlerWithFilter ["badword"] []
        ⟨"POST", some ⟨some (.str "some BadWord here")⟩, none, none⟩ 0
        sampleFetch).timerStarted = false ∧
    (handlerWithFilter ["badword"] []
        ⟨"POST", some ⟨some (.str "some BadWord here")⟩, none, none⟩ 0
        sampleFetch).hits = [] :=
  c2_denylist_rejected ["badword"] []
    ⟨"POST", some ⟨some (.str "some BadWord here")⟩, none, none⟩ 0 sampleFetch
    "some BadWord here" (by decide) (by decide) (by decide) (by decide)

end ChatApi
